import Mathlib

/-!
Shallow embedding of the `astro-themes-next` theme controller:
the inline script of `src/astro-themes-next/AstroThemesNext.astro`
(helpers `getTheme`, `getResolveTheme`, `getSystemTheme`, `saveToLS`,
`applyTheme`, the event handlers `handleStorage`, `handleSetTheme`,
`refreshTheme`) and the two other `getTheme` helpers
(`utils.ts` and the component frontmatter).

Modelling choices:
* JavaScript strings are `String`; a value that may be `null`/`undefined`
  is `Option String`; string truthiness is `s ≠ ""`.
* `localStorage` is `Option (String → Option String)`: `none` models an
  environment where `getItem`/`setItem` throw (the script catches the
  exception and proceeds), `some store` maps keys to stored strings.
* The root element is `Dom`: its class list (ordered, `classList.add`
  does not duplicate, `classList.remove` deletes all occurrences), its
  attribute map, and its `style.colorScheme` property (`none` = cleared).
* The `prefers-color-scheme: dark` media query is a boolean `dark`
  parameter, fixed during a handler run.
* `disableAnimation` only appends a transient `<style>` element to
  `document.head`, forces a reflow, and removes the element on the next
  tick; it never touches the root element or storage, so it does not
  appear in the `Dom` state.
-/

/-- JavaScript truthiness of a possibly-absent string: `null`/`undefined`
and the empty string are falsy. -/
def jsTruthy : Option String → Bool
  | some s => s ≠ ""
  | none => false

/-- JavaScript `x || undefined` for `x : string | null`. -/
def jsOrOpt (x : Option String) : Option String :=
  if jsTruthy x then x else none

/-- JavaScript `x || b` where `x` is a possibly-absent string and `b` a
string. -/
def jsOrD (x : Option String) (b : String) : String :=
  match x with
  | some s => if s = "" then b else s
  | none => b

/-- JavaScript `a || b` on strings. -/
def jsOrS (a b : String) : String :=
  if a = "" then b else a

/-- The `attribute` prop: a single attribute target or an array of them
(`Attribute | Attribute[]` in the source). -/
inductive AttrTarget where
  | single (a : String)
  | multiple (l : List String)

/-- The configuration captured by `define:vars` at render time
(`forcedTheme`, `disableTransitionOnChange`, `enableSystem`,
`enableColorScheme`, `storageKey`, `themes`, `defaultTheme`, `attribute`,
`value`, `nonce`). The `value` map is an association list of
theme-name/attribute-value pairs (`Object.keys` is the list of first
components). The source's `attribute` prop is named `attributeTarget`
here because `attribute` is reserved in Lean. -/
structure Config where
  forcedTheme : Option String
  disableTransitionOnChange : Bool
  enableSystem : Bool
  enableColorScheme : Bool
  storageKey : String
  themes : List String
  defaultTheme : String
  attributeTarget : AttrTarget
  value : Option (List (String × String))
  nonce : Option String

/-- A `localStorage` key-value store. -/
abbrev Store := String → Option String

/-- The `localStorage` handle: `none` when unavailable (accesses throw). -/
abbrev LS := Option Store

/-- The observable state of the root document element
(`document.documentElement`): class list, attribute map, and the
`style.colorScheme` inline style property. -/
@[ext]
structure Dom where
  classes : List String
  attrMap : String → Option String
  colorScheme : Option String

/-- A `storage` event: the changed key and its new value (`null` when the
entry was deleted). -/
structure StorageEvent where
  key : String
  newValue : Option String

/-- Combined mutable state touched by the handlers: storage plus the root
element. -/
structure State where
  ls : LS
  dom : Dom

/-- Source line `const colorSchemes = ['light', 'dark']`. -/
def colorSchemes : List String := ["light", "dark"]

/-- Function `getSystemTheme`: `prefersDark.matches ? 'dark' : 'light'`. -/
def getSystemTheme (dark : Bool) : String :=
  if dark then "dark" else "light"

/-- Function `getTheme(key, fallback)`: `theme = localStorage.getItem(key) ||
undefined` inside a `try`/`catch` (an unavailable storage leaves `theme`
undefined), then `return theme || fallback`. -/
def getTheme (ls : LS) (key fallback : String) : String :=
  let theme : Option String :=
    match ls with
    | none => none
    | some store => jsOrOpt (store key)
  jsOrD theme fallback

/-- Function `getResolveTheme()`: read the stored theme (falling back to
`defaultTheme`) and substitute the system theme for the sentinel
`'system'`. Note the source performs the substitution whenever the value
is `'system'`, without consulting `enableSystem`. -/
def getResolveTheme (cfg : Config) (ls : LS) (dark : Bool) : String :=
  let theme := getTheme ls cfg.storageKey cfg.defaultTheme
  if theme = "system" then getSystemTheme dark else theme

/-- Function `saveToLS(storageKey, value)`: `localStorage.setItem` inside
`try`/`catch`; when storage is unavailable the exception is swallowed and
nothing changes. -/
def saveToLS (ls : LS) (key v : String) : LS :=
  match ls with
  | none => none
  | some store => some (fun k => if k = key then some v else store k)

/-- The raw stored value under a key (`null` when absent or when storage
is unavailable). -/
def storedValue (ls : LS) (key : String) : Option String :=
  match ls with
  | none => none
  | some store => store key

/-- Source line `const attrs = !value ? themes : Object.keys(value)`. -/
def attrsOf (cfg : Config) : List String :=
  match cfg.value with
  | none => cfg.themes
  | some m => m.map Prod.fst

/-- The `class` branch of `handleAttribute`:
`d.classList.remove(...attrs); if (name) d.classList.add(name)`. -/
def classStep (attrsL : List String) (name : Option String) (cls : List String) :
    List String :=
  let cls2 := cls.filter (fun c => !(attrsL.contains c))
  match name with
  | some n => if n = "" then cls2 else if n ∈ cls2 then cls2 else cls2 ++ [n]
  | none => cls2

/-- Embedding of `attr.startsWith('data-')`, as a character-prefix test. -/
def startsWithData (attr : String) : Bool :=
  List.isPrefixOf "data-".data attr.data

/-- The `data-*` branch of `handleAttribute`:
`if (name) d.setAttribute(attr, name) else d.removeAttribute(attr)`. -/
def dataStep (name : Option String) (attr : String) (m : String → Option String) :
    String → Option String :=
  if jsTruthy name then fun k => if k = attr then name else m k
  else fun k => if k = attr then none else m k

/-- Function `handleAttribute(attr)` from `applyTheme`. -/
def handleAttribute (attrsL : List String) (name : Option String) (d : Dom)
    (attr : String) : Dom :=
  if attr = "class" then { d with classes := classStep attrsL name d.classes }
  else if startsWithData attr then
    { d with attrMap := dataStep name attr d.attrMap }
  else d

/-- The `resolved` local of `applyTheme`: the system theme when the
requested theme is `'system'` and `enableSystem` holds, else the
requested theme. -/
def resolvedOf (cfg : Config) (dark : Bool) (theme : String) : String :=
  if theme = "system" && cfg.enableSystem then getSystemTheme dark else theme

/-- The `name` local of `applyTheme`:
`value ? value[resolved] : resolved`. -/
def nameOf (cfg : Config) (resolved : String) : Option String :=
  match cfg.value with
  | some m => m.lookup resolved
  | none => some resolved

/-- Function `applyTheme(theme, doc)`: early return on a falsy theme, resolution of
`'system'` (here gated on `enableSystem`), `name = value ? value[resolved]
: resolved`, attribute handling for a single target or an array of
targets, then the optional `color-scheme` style hint. -/
def applyTheme (cfg : Config) (dark : Bool) (theme : String) (d : Dom) : Dom :=
  if theme = "" then d
  else
    let resolved := resolvedOf cfg dark theme
    let name := nameOf cfg resolved
    let attrsL := attrsOf cfg
    let d1 :=
      match cfg.attributeTarget with
      | AttrTarget.single a => handleAttribute attrsL name d a
      | AttrTarget.multiple l => l.foldl (handleAttribute attrsL name) d
    if cfg.enableColorScheme then
      let fb : Option String :=
        if cfg.defaultTheme ∈ colorSchemes then some cfg.defaultTheme else none
      let cs : Option String := if resolved ∈ colorSchemes then some resolved else fb
      { d1 with colorScheme := cs }
    else d1

/-- Function `handleStorage(e)`: ignore events for other keys, else apply
`e.newValue || defaultTheme`. -/
def handleStorage (cfg : Config) (dark : Bool) (e : StorageEvent) (d : Dom) : Dom :=
  if e.key ≠ cfg.storageKey then d
  else applyTheme cfg dark (jsOrD e.newValue cfg.defaultTheme) d

/-- The `else` branch of `handleSetTheme`: re-resolve, persist the
resolved value, apply it. -/
def setThemeAuto (cfg : Config) (dark : Bool) (s : State) : State :=
  let newTheme := getResolveTheme cfg s.ls dark
  { ls := saveToLS s.ls cfg.storageKey newTheme,
    dom := applyTheme cfg dark newTheme s.dom }

/-- Function `handleSetTheme(e)`: with a truthy `e.detail`, persist it and apply
it; otherwise auto-resolve. -/
def handleSetTheme (cfg : Config) (dark : Bool) (detail : Option String)
    (s : State) : State :=
  match detail with
  | some t =>
      if t = "" then setThemeAuto cfg dark s
      else
        { ls := saveToLS s.ls cfg.storageKey t,
          dom := applyTheme cfg dark t s.dom }
  | none => setThemeAuto cfg dark s

/-- Function `refreshTheme()`: `applyTheme(getResolveTheme())`, run on page load
and on media-query changes. It reads storage but never writes it. -/
def refreshTheme (cfg : Config) (dark : Bool) (s : State) : State :=
  { s with dom := applyTheme cfg dark (getResolveTheme cfg s.ls dark) s.dom }

namespace Utils

/-- Function `getTheme(fallback)` from `utils.ts`: computes
`localStorage.getItem('theme') || fallback || 'light'` into a local
constant but has no `return` statement, so the call evaluates to
`undefined`. `stored` is the raw `getItem('theme')` result. -/
def getTheme (stored : Option String) (fallback : String) : Option String :=
  let _theme := jsOrS (jsOrD stored fallback) "light"
  none

end Utils

namespace Frontmatter

/-- Function `getTheme()` exported from the component frontmatter: reads
`document.documentElement.attributes.getNamedItem('data-theme')?.value`
but has no `return` statement, so the call evaluates to `undefined`. -/
def getTheme (d : Dom) : Option String :=
  let _v := d.attrMap "data-theme"
  none

end Frontmatter

/-- An empty root element. -/
def emptyDom : Dom :=
  { classes := [], attrMap := fun _ => none, colorScheme := none }

/-- A storage state with no data stored but with working storage. -/
def stEmpty : State := { ls := some (fun _ => none), dom := emptyDom }

/-- The component's default configuration: no forced theme, transitions
kept, system detection on, color-scheme hint on, key `"theme"`, themes
`["light", "dark"]`, default `"system"`, target `data-theme`, no value
map, no nonce. -/
def cfgBase : Config :=
  { forcedTheme := none
    disableTransitionOnChange := false
    enableSystem := true
    enableColorScheme := true
    storageKey := "theme"
    themes := ["light", "dark"]
    defaultTheme := "system"
    attributeTarget := AttrTarget.single "data-theme"
    value := none
    nonce := none }

/-- Default configuration with a forced theme override of `"dark"`. -/
def cfgForced : Config := { cfgBase with forcedTheme := some "dark" }

/-- Default configuration with default theme `"dark"`. -/
def cfgD : Config := { cfgBase with defaultTheme := "dark" }

/-- Configuration with system detection disabled (so the component
default theme is `"light"`). -/
def cfgNoSys : Config := { cfgBase with enableSystem := false, defaultTheme := "light" }

/-- Configuration targeting the class list with a value map whose mapped
classes differ from the theme names. -/
def cfg4 : Config :=
  { cfgBase with
    attributeTarget := AttrTarget.single "class"
    value := some [("light", "light-cls"), ("dark", "dark-cls")]
    enableColorScheme := false }

/-- Storage holding `"light"` under the key `"theme"`. -/
def lsLight : LS := some (fun k => if k = "theme" then some "light" else none)

/-- Storage holding the empty string under the key `"theme"`. -/
def lsEmptyVal : LS := some (fun k => if k = "theme" then some "" else none)

/-- Storage holding `"system"` under the key `"theme"`. -/
def lsSystem : LS := some (fun k => if k = "theme" then some "system" else none)

/-- Storage holding `"violet"` under the key `"theme"`. -/
def lsViolet : LS := some (fun k => if k = "theme" then some "violet" else none)

/-- Expression of `getTheme` in terms of the raw stored value. -/
theorem getTheme_eq (ls : LS) (key fb : String) :
    getTheme ls key fb = jsOrD (jsOrOpt (storedValue ls key)) fb := by
  cases ls <;> rfl

/-- Helper fact: `getResolveTheme` never returns the sentinel `"system"`: when the
looked-up theme is `"system"` it is replaced by the system theme, which is
`"dark"` or `"light"`. -/
theorem getResolveTheme_ne_system (cfg : Config) (ls : LS) (dark : Bool) :
    getResolveTheme cfg ls dark ≠ "system" := by
  unfold getResolveTheme getSystemTheme
  by_cases h : getTheme ls cfg.storageKey cfg.defaultTheme = "system"
  · simp only [h, if_true]
    cases dark <;> simp
  · simp [h]

/-- C1: the forced theme override is never consulted by the runtime
script: with `forcedTheme = "dark"` and `"light"` stored, page load
applies `"light"` to the root element; moreover `refreshTheme` is
independent of the `forcedTheme` field for every configuration, media
state, and starting state. -/
theorem forcedTheme_ignored_on_load :
    cfgForced.forcedTheme = some "dark"
    ∧ (refreshTheme cfgForced true { ls := lsLight, dom := emptyDom }).dom.attrMap
        "data-theme" = some "light"
    ∧ ∀ (cfg : Config) (f : Option String) (dark : Bool) (s : State),
        refreshTheme { cfg with forcedTheme := f } dark s = refreshTheme cfg dark s :=
  ⟨rfl, by decide, fun _ _ _ _ => rfl⟩

/-- C2 counterexample: the empty string is persisted under the storage
key (present and different from `"system"`), yet `getResolveTheme`
returns the configured default `"dark"`, not the persisted value, because
the read treats every falsy value as absent. -/
theorem resolve_ignores_empty_stored_value :
    storedValue lsEmptyVal cfgD.storageKey = some ""
    ∧ ("" : String) ≠ "system"
    ∧ cfgD.defaultTheme = "dark"
    ∧ getResolveTheme cfgD lsEmptyVal false = "dark" := by decide

/-- C2 (amended): for a persisted value that is present, non-empty and
not `"system"`, `getResolveTheme` returns it; when no value is stored or
the stored value is empty (treated as absent), and the default is not
`"system"`, it returns the configured default. -/
theorem resolve_nonsystem (cfg : Config) (ls : LS) (dark : Bool) (t : String) :
    ((storedValue ls cfg.storageKey = some t ∧ t ≠ "" ∧ t ≠ "system") →
        getResolveTheme cfg ls dark = t)
    ∧ ((storedValue ls cfg.storageKey = none ∨ storedValue ls cfg.storageKey = some "") →
        cfg.defaultTheme ≠ "system" →
        getResolveTheme cfg ls dark = cfg.defaultTheme) := by
  constructor
  · rintro ⟨hst, hne, hns⟩
    unfold getResolveTheme
    rw [getTheme_eq, hst]
    simp [jsOrOpt, jsTruthy, jsOrD, hne, hns]
  · rintro (h | h) hdef <;>
      · unfold getResolveTheme
        rw [getTheme_eq, h]
        simp [jsOrOpt, jsTruthy, jsOrD, hdef]

/-- C2 witness: with `"violet"` stored, resolution returns `"violet"`. -/
theorem resolve_nonsystem_witness :
    getResolveTheme cfgD lsViolet false = "violet" :=
  (resolve_nonsystem cfgD lsViolet false "violet").1 ⟨by decide, by decide, by decide⟩

/-- C3 counterexample: with system detection disabled and `"system"`
persisted, `getResolveTheme` still substitutes the media-query result:
it returns `"dark"` under a dark media state and `"light"` otherwise,
never the sentinel, although the claim requires no substitution here. -/
theorem resolve_substitutes_despite_disabled_system :
    cfgNoSys.enableSystem = false
    ∧ storedValue lsSystem cfgNoSys.storageKey = some "system"
    ∧ getResolveTheme cfgNoSys lsSystem true = "dark"
    ∧ getResolveTheme cfgNoSys lsSystem false = "light" := by decide

/-- C3 (amended): `getResolveTheme` substitutes the media-query result
exactly when the looked-up theme is `"system"`, regardless of the
system-detection flag; the substituted value is `"dark"` when the query
matches dark and `"light"` otherwise. -/
theorem resolve_system_substitution (cfg : Config) (ls : LS) (dark : Bool) :
    (getTheme ls cfg.storageKey cfg.defaultTheme = "system" →
        getResolveTheme cfg ls dark = if dark then "dark" else "light")
    ∧ (getTheme ls cfg.storageKey cfg.defaultTheme ≠ "system" →
        getResolveTheme cfg ls dark = getTheme ls cfg.storageKey cfg.defaultTheme) := by
  unfold getResolveTheme getSystemTheme
  constructor
  · intro h; simp [h]
  · intro h; simp [h]

/-- C3 witness: substitution fires on stored `"system"` even with
detection disabled, and yields the media-query value. -/
theorem resolve_system_substitution_witness :
    getResolveTheme cfgNoSys lsSystem true = if true then "dark" else "light" :=
  (resolve_system_substitution cfgNoSys lsSystem true).1 (by decide)

/-- C4: the class branch removes `Object.keys(value)` (the theme names),
not the mapped class values, so a mapped class applied earlier survives:
applying `"light"` then `"dark"` leaves both `"light-cls"` and
`"dark-cls"` on the root element instead of `"dark-cls"` alone. -/
theorem class_removal_uses_map_keys :
    attrsOf cfg4 = ["light", "dark"]
    ∧ (applyTheme cfg4 false "light" emptyDom).classes = ["light-cls"]
    ∧ (applyTheme cfg4 false "dark" (applyTheme cfg4 false "light" emptyDom)).classes
        = ["light-cls", "dark-cls"] := by decide

/-- C6 counterexample: a storage event whose key matches and whose new
value is the non-null empty string applies the configured default
`"dark"` to the root element, not the event's value (applying the empty
string itself is a no-op, shown for contrast). -/
theorem storage_event_empty_new_value :
    (handleStorage cfgD false { key := "theme", newValue := some "" } emptyDom).attrMap
        "data-theme" = some "dark"
    ∧ (applyTheme cfgD false "" emptyDom).attrMap "data-theme" = none := by decide

/-- C6 (amended): a storage event with a non-matching key changes
nothing; with a matching key and a null or empty new value the configured
default is applied; with a matching key and a non-empty new value that
value is applied. -/
theorem handleStorage_cases (cfg : Config) (dark : Bool) (e : StorageEvent) (d : Dom) :
    (e.key ≠ cfg.storageKey → handleStorage cfg dark e d = d)
    ∧ (e.key = cfg.storageKey → (e.newValue = none ∨ e.newValue = some "") →
        handleStorage cfg dark e d = applyTheme cfg dark cfg.defaultTheme d)
    ∧ (∀ v, e.key = cfg.storageKey → e.newValue = some v → v ≠ "" →
        handleStorage cfg dark e d = applyTheme cfg dark v d) := by
  refine ⟨fun h => by simp [handleStorage, h], ?_, ?_⟩
  · rintro hk (h | h) <;> simp [handleStorage, hk, h, jsOrD]
  · intro v hk hv hne
    simp [handleStorage, hk, hv, jsOrD, hne]

/-- C6 witness: a matching event carrying `"violet"` applies
`"violet"`. -/
theorem handleStorage_cases_witness :
    handleStorage cfgD false { key := "theme", newValue := some "violet" } emptyDom
      = applyTheme cfgD false "violet" emptyDom :=
  (handleStorage_cases cfgD false { key := "theme", newValue := some "violet" } emptyDom).2.2
    "violet" (by decide) rfl (by decide)

/-- C9: both exported `getTheme` helpers lack a `return` statement, so
they evaluate to `undefined` for every input and every storage/DOM
state. -/
theorem getTheme_helpers_return_undefined (stored : Option String)
    (fallback : String) (d : Dom) :
    Utils.getTheme stored fallback = none ∧ Frontmatter.getTheme d = none :=
  ⟨rfl, rfl⟩

/-- C5: with a supplied (truthy) theme value, the set-theme handler
persists it under the storage key and applies it to the root element; a
failing persistence write (unavailable storage) is swallowed, leaving
storage unchanged, and the DOM application still takes place; the handler
is a total function, so no error reaches the caller. -/
theorem setTheme_persists_then_applies (cfg : Config) (dark : Bool) (t : String)
    (s : State) (ht : t ≠ "") :
    ((handleSetTheme cfg dark (some t) s).dom = applyTheme cfg dark t s.dom)
    ∧ (∀ store, s.ls = some store →
        storedValue (handleSetTheme cfg dark (some t) s).ls cfg.storageKey = some t)
    ∧ (s.ls = none → (handleSetTheme cfg dark (some t) s).ls = none) := by
  refine ⟨by simp [handleSetTheme, ht], ?_, ?_⟩
  · intro store hst
    simp [handleSetTheme, ht, hst, saveToLS, storedValue]
  · intro hst
    simp [handleSetTheme, ht, hst, saveToLS]

/-- C5 witness: setting `"violet"` on empty, working storage applies it
to the root element. -/
theorem setTheme_persists_then_applies_witness :
    (handleSetTheme cfgD false (some "violet") stEmpty).dom
      = applyTheme cfgD false "violet" stEmpty.dom :=
  (setTheme_persists_then_applies cfgD false "violet" stEmpty (by decide)).1

/-- C8: with the color-scheme hint enabled, `applyTheme` sets the root
element's color-scheme style property to the resolved theme when it is
one of `"light"`/`"dark"`, else to the configured default theme when that
is one of `"light"`/`"dark"`, else clears it (`null`). -/
theorem colorScheme_hint (cfg : Config) (dark : Bool) (theme : String) (d : Dom)
    (ht : theme ≠ "") (hcs : cfg.enableColorScheme = true) :
    (applyTheme cfg dark theme d).colorScheme =
      (if resolvedOf cfg dark theme ∈ colorSchemes then some (resolvedOf cfg dark theme)
       else if cfg.defaultTheme ∈ colorSchemes then some cfg.defaultTheme
       else none) := by
  unfold applyTheme
  rw [if_neg ht]
  simp [hcs]

/-- C8 witness: applying the non-canonical theme `"violet"` under default
theme `"dark"` writes the fallback `"dark"` color-scheme hint. -/
theorem colorScheme_hint_witness :
    (applyTheme cfgD false "violet" emptyDom).colorScheme = some "dark" :=
  (colorScheme_hint cfgD false "violet" emptyDom (by decide) (by decide)).trans (by decide)

/-- C10: with a falsy detail (absent or empty), the set-theme handler
persists the re-resolved theme, which is never the sentinel `"system"`
(resolution happens before the write); and applying the falsy theme value
`""` is a complete no-op on the root element (and `applyTheme` never
touches storage). -/
theorem setTheme_auto_persists_resolved (cfg : Config) (dark : Bool)
    (detail : Option String) (s : State) (hf : jsTruthy detail = false) :
    (handleSetTheme cfg dark detail s).ls
        = saveToLS s.ls cfg.storageKey (getResolveTheme cfg s.ls dark)
    ∧ getResolveTheme cfg s.ls dark ≠ "system"
    ∧ ∀ d, applyTheme cfg dark "" d = d := by
  refine ⟨?_, getResolveTheme_ne_system cfg s.ls dark, fun d => rfl⟩
  cases detail with
  | none => rfl
  | some t =>
      have ht : t = "" := by simpa [jsTruthy] using hf
      simp [handleSetTheme, ht, setThemeAuto]

/-- C10 witness: an empty set-theme signal on empty, working storage
persists the resolved theme. -/
theorem setTheme_auto_persists_resolved_witness :
    (handleSetTheme cfgD false none stEmpty).ls
      = saveToLS stEmpty.ls cfgD.storageKey (getResolveTheme cfgD stEmpty.ls false) :=
  (setTheme_auto_persists_resolved cfgD false none stEmpty rfl).1

/-- The attribute targets `applyTheme` iterates over: a one-element list
for a single target, the array itself otherwise. -/
def targetList (t : AttrTarget) : List String :=
  match t with
  | AttrTarget.single a => [a]
  | AttrTarget.multiple l => l

/-- The `color-scheme` value `applyTheme` writes when the hint is
enabled. -/
def csOf (cfg : Config) (dark : Bool) (theme : String) : Option String :=
  if resolvedOf cfg dark theme ∈ colorSchemes then some (resolvedOf cfg dark theme)
  else if cfg.defaultTheme ∈ colorSchemes then some cfg.defaultTheme
  else none

/-- The effect of one attribute target on the class list. -/
def foldClassesStep (A : List String) (n : Option String) (c : List String)
    (a : String) : List String :=
  if a = "class" then classStep A n c else c

/-- The combined effect of a target list on the class list. -/
def foldClasses (A : List String) (n : Option String) (l : List String)
    (c : List String) : List String :=
  l.foldl (foldClassesStep A n) c

/-- The effect of one attribute target on the attribute map. -/
def foldMapStep (n : Option String) (m : Store) (a : String) : Store :=
  if a = "class" then m else if startsWithData a then dataStep n a m else m

/-- The combined effect of a target list on the attribute map. -/
def foldMap (n : Option String) (l : List String) (m : Store) : Store :=
  l.foldl (foldMapStep n) m

theorem handleAttribute_classes (A : List String) (n : Option String) (d : Dom)
    (a : String) :
    (handleAttribute A n d a).classes = foldClassesStep A n d.classes a := by
  unfold handleAttribute foldClassesStep
  by_cases h : a = "class"
  · simp [h]
  · simp only [h, if_false]
    split <;> rfl

theorem handleAttribute_attrMap (A : List String) (n : Option String) (d : Dom)
    (a : String) :
    (handleAttribute A n d a).attrMap = foldMapStep n d.attrMap a := by
  unfold handleAttribute foldMapStep
  by_cases h : a = "class"
  · simp [h]
  · simp only [h, if_false]
    split <;> rfl

theorem handleAttribute_colorScheme (A : List String) (n : Option String) (d : Dom)
    (a : String) :
    (handleAttribute A n d a).colorScheme = d.colorScheme := by
  unfold handleAttribute
  split
  · rfl
  · split <;> rfl

/-- The attribute-handling fold acts componentwise on the root element:
class targets rewrite the class list, data targets rewrite the attribute
map, and the color-scheme style is untouched. -/
theorem foldAttrs_eq (A : List String) (n : Option String) (l : List String)
    (d : Dom) :
    l.foldl (handleAttribute A n) d =
      { classes := foldClasses A n l d.classes
        attrMap := foldMap n l d.attrMap
        colorScheme := d.colorScheme } := by
  induction l generalizing d with
  | nil => rfl
  | cons a l ih =>
      rw [List.foldl_cons, ih, handleAttribute_classes, handleAttribute_attrMap,
        handleAttribute_colorScheme]
      rfl

/-- Repeating the class-list mutation for a fixed candidate list and
mapped value changes nothing. -/
theorem classStep_idem (A : List String) (n : Option String) (c : List String) :
    classStep A n (classStep A n c) = classStep A n c := by
  have hff : ∀ l : List String,
      (l.filter fun x => !(A.contains x)).filter (fun x => !(A.contains x))
        = l.filter fun x => !(A.contains x) := by
    intro l
    simp [List.filter_filter]
  cases n with
  | none => exact hff c
  | some v =>
      unfold classStep
      by_cases hv : v = ""
      · simp only [if_pos hv]
        exact hff c
      · simp only [if_neg hv]
        by_cases hm : v ∈ c.filter fun x => !(A.contains x)
        · rw [if_pos hm, hff c, if_pos hm]
        · rw [if_neg hm, List.filter_append, hff c]
          by_cases hp : A.contains v
          · have hv2 : v ∈ A := by simpa using hp
            have h1 : [v].filter (fun x => !(A.contains x)) = [] := by simp [hv2]
            rw [h1, List.append_nil, if_neg hm]
          · have hv2 : v ∉ A := by simpa using hp
            have h2 : [v].filter (fun x => !(A.contains x)) = [v] := by simp [hv2]
            have h3 : v ∈ (c.filter fun x => !(A.contains x)) ++ [v] := by simp
            rw [h2, if_pos h3]

/-- Helper fact: `dataStep` writes one key and leaves the rest of the map alone. -/
theorem dataStep_eq (n : Option String) (a : String) (m : Store) :
    dataStep n a m = fun k =>
      if k = a then (if jsTruthy n then n else none) else m k := by
  unfold dataStep
  by_cases h : jsTruthy n <;> simp [h]


/-- Pointwise form of `dataStep`. -/
theorem dataStep_apply (n : Option String) (a : String) (m : Store) (k : String) :
    dataStep n a m k = if k = a then (if jsTruthy n then n else none) else m k := by
  unfold dataStep
  by_cases h : jsTruthy n <;> simp [h]

/-- Pointwise description of the attribute-map fold: every data target in
the list holds the written value, every other key is unchanged. -/
theorem foldMap_apply (n : Option String) (l : List String) (m : Store) (k : String) :
    foldMap n l m k =
      if k ≠ "class" ∧ startsWithData k = true ∧ k ∈ l
      then (if jsTruthy n then n else none) else m k := by
  induction l generalizing m with
  | nil => simp [foldMap]
  | cons a l ih =>
      have hcons : foldMap n (a :: l) m = foldMap n l (foldMapStep n m a) := rfl
      rw [hcons, ih]
      by_cases hP : k ≠ "class" ∧ startsWithData k = true ∧ k ∈ l
      · have hmem : k ≠ "class" ∧ startsWithData k = true ∧ k ∈ a :: l :=
          ⟨hP.1, hP.2.1, List.mem_cons_of_mem a hP.2.2⟩
        rw [if_pos hP, if_pos hmem]
      · rw [if_neg hP]
        unfold foldMapStep
        by_cases hac : a = "class"
        · rw [if_pos hac]
          have hnot : ¬(k ≠ "class" ∧ startsWithData k = true ∧ k ∈ a :: l) := by
            rintro ⟨h1, h2, h3⟩
            rcases List.mem_cons.mp h3 with h | h
            · exact h1 (h.trans hac)
            · exact hP ⟨h1, h2, h⟩
          rw [if_neg hnot]
        · rw [if_neg hac]
          by_cases had : startsWithData a = true
          · rw [if_pos had, dataStep_apply]
            by_cases hka : k = a
            · have hmem2 : k ≠ "class" ∧ startsWithData k = true ∧ k ∈ a :: l := by
                subst hka
                exact ⟨hac, had, List.mem_cons_self k l⟩
              rw [if_pos hka, if_pos hmem2]
            · have hnot : ¬(k ≠ "class" ∧ startsWithData k = true ∧ k ∈ a :: l) := by
                rintro ⟨h1, h2, h3⟩
                rcases List.mem_cons.mp h3 with h | h
                · exact hka h
                · exact hP ⟨h1, h2, h⟩
              rw [if_neg hnot, if_neg hka]
          · rw [if_neg had]
            have hnot : ¬(k ≠ "class" ∧ startsWithData k = true ∧ k ∈ a :: l) := by
              rintro ⟨h1, h2, h3⟩
              rcases List.mem_cons.mp h3 with h | h
              · exact had (h ▸ h2)
              · exact hP ⟨h1, h2, h⟩
            rw [if_neg hnot]

/-- Running the attribute-map fold twice equals running it once. -/
theorem foldMap_idem (n : Option String) (l : List String) (m : Store) :
    foldMap n l (foldMap n l m) = foldMap n l m := by
  funext k
  simp only [foldMap_apply]
  by_cases hP : k ≠ "class" ∧ startsWithData k = true ∧ k ∈ l
  · simp [hP]
  · simp [hP]

/-- The class-list fold is the single class mutation when a class target
is present, and the identity otherwise. -/
theorem foldClasses_eq (A : List String) (n : Option String) (l : List String)
    (c : List String) :
    foldClasses A n l c = if "class" ∈ l then classStep A n c else c := by
  induction l generalizing c with
  | nil => simp [foldClasses]
  | cons a l ih =>
      have hcons : foldClasses A n (a :: l) c
          = foldClasses A n l (foldClassesStep A n c a) := rfl
      rw [hcons, ih]
      unfold foldClassesStep
      by_cases hac : a = "class"
      · subst hac
        by_cases hm : "class" ∈ l
        · simp [hm, classStep_idem]
        · simp [hm]
      · have hca : ¬("class" = a) := fun h => hac h.symm
        simp [hac, List.mem_cons, hca]

/-- Running the class-list fold twice equals running it once. -/
theorem foldClasses_idem (A : List String) (n : Option String) (l : List String)
    (c : List String) :
    foldClasses A n l (foldClasses A n l c) = foldClasses A n l c := by
  simp only [foldClasses_eq]
  by_cases hm : "class" ∈ l
  · simp [hm, classStep_idem]
  · simp [hm]

/-- Componentwise description of `applyTheme` for a truthy theme. -/
theorem applyTheme_eq (cfg : Config) (dark : Bool) (t : String) (d : Dom) (ht : t ≠ "") :
    applyTheme cfg dark t d =
      { classes := foldClasses (attrsOf cfg) (nameOf cfg (resolvedOf cfg dark t))
          (targetList cfg.attributeTarget) d.classes
        attrMap := foldMap (nameOf cfg (resolvedOf cfg dark t))
          (targetList cfg.attributeTarget) d.attrMap
        colorScheme := if cfg.enableColorScheme then csOf cfg dark t else d.colorScheme } := by
  unfold applyTheme csOf
  rw [if_neg ht]
  rcases hat : cfg.attributeTarget with a | l
  · by_cases hcs : cfg.enableColorScheme = true
    · simp only [hcs, targetList, if_true]
      rw [handleAttribute_classes, handleAttribute_attrMap]
      rfl
    · simp only [hcs, Bool.false_eq_true, if_false, targetList]
      refine Dom.ext ?_ ?_ ?_
      · rw [handleAttribute_classes]
        rfl
      · rw [handleAttribute_attrMap]
        rfl
      · rw [handleAttribute_colorScheme]
  · by_cases hcs : cfg.enableColorScheme = true
    · simp only [hcs, targetList, if_true]
      rw [foldAttrs_eq]
    · simp only [hcs, Bool.false_eq_true, if_false, targetList]
      rw [foldAttrs_eq]

/-- Applying the same theme twice leaves exactly the root-element state of
a single application. -/
theorem applyTheme_idem (cfg : Config) (dark : Bool) (t : String) (d : Dom) :
    applyTheme cfg dark t (applyTheme cfg dark t d) = applyTheme cfg dark t d := by
  by_cases ht : t = ""
  · subst ht
    rfl
  · rw [applyTheme_eq cfg dark t d ht, applyTheme_eq cfg dark t _ ht]
    refine Dom.ext ?_ ?_ ?_
    · exact foldClasses_idem _ _ _ _
    · exact foldMap_idem _ _ _
    · by_cases hcs : cfg.enableColorScheme = true <;> simp [hcs]

/-- Writing the same value twice to storage equals writing it once. -/
theorem saveToLS_idem (ls : LS) (key v : String) :
    saveToLS (saveToLS ls key v) key v = saveToLS ls key v := by
  cases ls with
  | none => rfl
  | some store =>
      simp only [saveToLS, Option.some.injEq]
      funext k
      by_cases h : k = key <;> simp [h]

/-- A falsy-or-absent read result always falls through to the fallback of
the read, so an empty read result forces an empty fallback. -/
theorem jsOr_empty (x : Option String) (b : String) :
    jsOrD (jsOrOpt x) b = "" → b = "" := by
  unfold jsOrD jsOrOpt jsTruthy
  cases x with
  | none => simp
  | some s => by_cases h : s = "" <;> simp [h]

/-- Unfolded form of `getResolveTheme`. -/
theorem getResolveTheme_def (cfg : Config) (ls : LS) (dark : Bool) :
    getResolveTheme cfg ls dark =
      if getTheme ls cfg.storageKey cfg.defaultTheme = "system" then getSystemTheme dark
      else getTheme ls cfg.storageKey cfg.defaultTheme := rfl

/-- Re-resolving right after persisting the resolved theme yields the
same theme again. -/
theorem resolve_after_save (cfg : Config) (ls : LS) (dark : Bool) :
    getResolveTheme cfg (saveToLS ls cfg.storageKey (getResolveTheme cfg ls dark)) dark
      = getResolveTheme cfg ls dark := by
  cases ls with
  | none => rfl
  | some store =>
    have hne := getResolveTheme_ne_system cfg (some store) dark
    have hstored : storedValue
        (saveToLS (some store) cfg.storageKey (getResolveTheme cfg (some store) dark))
        cfg.storageKey = some (getResolveTheme cfg (some store) dark) := by
      simp [saveToLS, storedValue]
    have hget : getTheme
        (saveToLS (some store) cfg.storageKey (getResolveTheme cfg (some store) dark))
        cfg.storageKey cfg.defaultTheme
        = if getResolveTheme cfg (some store) dark = "" then cfg.defaultTheme
          else getResolveTheme cfg (some store) dark := by
      rw [getTheme_eq, hstored]
      unfold jsOrD jsOrOpt jsTruthy
      by_cases h : getResolveTheme cfg (some store) dark = "" <;> simp [h]
    by_cases h0 : getResolveTheme cfg (some store) dark = ""
    · have hbd : cfg.defaultTheme = "" := by
        have h1 := h0
        unfold getResolveTheme at h1
        by_cases h2 : getTheme (some store) cfg.storageKey cfg.defaultTheme = "system"
        · rw [if_pos h2] at h1
          unfold getSystemTheme at h1
          cases dark <;> simp at h1
        · rw [if_neg h2] at h1
          rw [getTheme_eq] at h1
          exact jsOr_empty _ _ h1
      rw [getResolveTheme_def, hget]
      simp [h0, hbd]
    · rw [getResolveTheme_def, hget]
      simp [h0, hne]

/-- The auto branch of the set-theme handler is idempotent. -/
theorem setThemeAuto_idem (cfg : Config) (dark : Bool) (s : State) :
    setThemeAuto cfg dark (setThemeAuto cfg dark s) = setThemeAuto cfg dark s := by
  simp only [setThemeAuto]
  rw [resolve_after_save, saveToLS_idem, applyTheme_idem]

/-- C7: `setTheme` is idempotent: dispatching the same set-theme detail
twice produces exactly the persisted storage value and root-element
attribute/class/style state of a single dispatch, for every
configuration, media-query state, theme value (including the falsy ones)
and starting storage/DOM state. -/
theorem setTheme_idempotent (cfg : Config) (dark : Bool) (detail : Option String)
    (s : State) :
    handleSetTheme cfg dark detail (handleSetTheme cfg dark detail s)
      = handleSetTheme cfg dark detail s := by
  cases detail with
  | none => exact setThemeAuto_idem cfg dark s
  | some t =>
      by_cases ht : t = ""
      · subst ht
        simp only [handleSetTheme, if_pos rfl]
        exact setThemeAuto_idem cfg dark s
      · simp only [handleSetTheme, if_neg ht]
        rw [saveToLS_idem, applyTheme_idem]
